import Mathlib

/-!
Verification model of the julz-ai-assistant server: an Express-based proxy
that validates a chat message, relays a streamed model reply to the client
as Server-Sent Events, and accumulates token-usage statistics in memory.

The definitions below are a shallow embedding of:
  - src/services/ai.service.js   (streamAIReply, _recordUsage, getTokenStats)
  - src/controllers/chat.controller.js (handleChat)
  - src/middleware/error.middleware.js (errorMiddleware)
-/

namespace JulzAI

/-- JavaScript values a request-body field can hold, as far as the
validator distinguishes them. -/
inductive JSValue where
  | undefined
  | null
  | bool (b : Bool)
  | num (n : Int)
  | str (s : String)
deriving DecidableEq, Repr

/-- JavaScript truthiness of a `JSValue` (NaN is not modelled;
`undefined`, `null`, `false`, `0` and the empty string are falsy). -/
def jsTruthy : JSValue → Bool
  | .undefined => false
  | .null => false
  | .bool b => b
  | .num n => n != 0
  | .str s => s != ""

/-- `typeof v === "string"`. -/
def JSValue.isString : JSValue → Bool
  | .str _ => true
  | _ => false

/-- The string payload of a string `JSValue` (only used after the
`typeof` check has passed). -/
def JSValue.strVal : JSValue → String
  | .str s => s
  | _ => ""

/-- The code points `String.prototype.trim` strips: ECMAScript WhiteSpace
(TAB, VT, FF, SP, NBSP, BOM and the Zs space separators) and
LineTerminator (LF, CR, LS, PS). -/
def isJsWhitespace (c : Char) : Bool :=
  c.val == 9 || c.val == 10 || c.val == 11 || c.val == 12 || c.val == 13 ||
  c.val == 32 || c.val == 160 || c.val == 5760 ||
  (8192 ≤ c.val && c.val ≤ 8202) ||
  c.val == 8232 || c.val == 8233 || c.val == 8239 || c.val == 8287 ||
  c.val == 12288 || c.val == 65279

/-- `message.trim()` on the character list: strip leading and trailing
JavaScript whitespace. -/
def jsTrimList (l : List Char) : List Char :=
  ((l.dropWhile isJsWhitespace).reverse.dropWhile isJsWhitespace).reverse

/-- `message.trim()`. -/
def jsTrim (s : String) : String :=
  ⟨jsTrimList s.data⟩

/-- A token-usage summary as delivered in the final stream chunk
(`usage` object with `prompt_tokens`, `completion_tokens`,
`total_tokens`). -/
structure Usage where
  prompt_tokens : Nat
  completion_tokens : Nat
  total_tokens : Nat
deriving DecidableEq, Repr

/-- The in-memory cumulative token-usage tracker `_tokenStats`. -/
structure TokenStats where
  totalRequests : Nat
  promptTokens : Nat
  completionTokens : Nat
  totalTokens : Nat
deriving DecidableEq, Repr

/-- Initial value of `_tokenStats`: all four counters zero. -/
def initStats : TokenStats :=
  { totalRequests := 0, promptTokens := 0, completionTokens := 0, totalTokens := 0 }

/-- `_recordUsage(usage)` from ai.service.js: a no-op when `usage` is
null/undefined, otherwise adds the summary onto all four counters
(`usage.prompt_tokens || 0` coincides with the field itself over Nat). -/
def _recordUsage (usage : Option Usage) (s : TokenStats) : TokenStats :=
  match usage with
  | none => s
  | some u =>
    { totalRequests := s.totalRequests + 1,
      promptTokens := s.promptTokens + u.prompt_tokens,
      completionTokens := s.completionTokens + u.completion_tokens,
      totalTokens := s.totalTokens + u.total_tokens }

/-- One SSE frame written to the response: the JSON object inside a
single standard data frame. -/
inductive Frame where
  | chunk (text : String)
  | done (usage : Option Usage)
  | error (msg : String)
deriving DecidableEq, Repr

/-- The Express response as the handler observes it: whether headers
have been flushed, the ordered list of SSE frames written, and whether
`res.end()` has been called. -/
structure Response where
  headersSent : Bool
  writes : List Frame
  ended : Bool
deriving DecidableEq, Repr

/-- `res.write(frame)`. -/
def Response.write (r : Response) (f : Frame) : Response :=
  { r with writes := r.writes ++ [f] }

/-- `res.end()`. -/
def Response.resEnd (r : Response) : Response :=
  { r with ended := true }

/-- A response on which nothing has happened yet. -/
def freshRes : Response :=
  { headersSent := false, writes := [], ended := false }

/-- The response right after the controller flushed the SSE headers. -/
def sseStartedRes : Response :=
  { headersSent := true, writes := [], ended := false }

/-- A JavaScript `Error` as the error middleware inspects it:
`message`, and the optional `statusCode` / `status` fields. -/
structure JsError where
  message : String
  statusCode : Option Nat
  status : Option Nat
deriving DecidableEq, Repr

/-- JavaScript `a || b` over optional numbers, where 0 is falsy. -/
def jsOrNat (a b : Option Nat) : Option Nat :=
  match a with
  | some n => if n = 0 then b else some n
  | none => b

/-- The uniform JSON error response the middleware sends:
`res.status(statusCode).json(\x7b error: ... \x7d)`. -/
structure JsonErrorResponse where
  status : Nat
  error : String
deriving DecidableEq, Repr

/-- `errorMiddleware` from error.middleware.js: status is
`err.statusCode || err.status || 500`, body is the JSON object with
`err.message || "Internal server error"`. -/
def errorMiddleware (err : JsError) : JsonErrorResponse :=
  { status := (jsOrNat err.statusCode (jsOrNat err.status none)).getD 500,
    error := if err.message = "" then "Internal server error" else err.message }

/-- `delta` object inside a stream chunk's first choice. -/
structure Delta where
  content : Option String
deriving DecidableEq, Repr

/-- One element of a chunk's `choices` array. -/
structure Choice where
  delta : Option Delta
deriving DecidableEq, Repr

/-- One chunk yielded by the upstream stream iterator. -/
structure StreamChunk where
  choices : List Choice
  usage : Option Usage
deriving DecidableEq, Repr

/-- `chunk.choices[0]?.delta?.content` with optional chaining. -/
def deltaContent (c : StreamChunk) : Option String :=
  match c.choices.head? with
  | none => none
  | some ch =>
    match ch.delta with
    | none => none
    | some d => d.content

/-- One message in the upstream chat-completion request body. -/
structure ChatMessage where
  role : String
  content : String
deriving DecidableEq, Repr

/-- The request body passed to `openai.chat.completions.create`. -/
structure UpstreamRequest where
  model : String
  messages : List ChatMessage
  max_tokens : Nat
  temperature : Rat
  stream : Bool
  include_usage : Bool
deriving DecidableEq, Repr

/-- Abridged stand-in for the long fixed system-prompt constant
`OWNER_CONTEXT` in ai.service.js; every claim depends only on its being
a fixed string, not on its text. -/
def OWNER_CONTEXT : String :=
  "You are an AI assistant embedded in the personal portfolio website of James, a full-stack software developer."

/-- JavaScript `a || b` over an optional string env var, where the empty
string is falsy. -/
def jsOrStr (a : Option String) (b : String) : String :=
  match a with
  | some s => if s = "" then b else s
  | none => b

/-- The chat-completion request `streamAIReply` constructs:
`process.env.OPENAI_MODEL || "stepfun/step-3.5-flash"`, the fixed system
message plus the user message, `max_tokens: 512`, `temperature: 0.7`,
`stream: true`, `stream_options.include_usage: true`. -/
def mkUpstreamRequest (envModel : Option String) (userMessage : String) : UpstreamRequest :=
  { model := jsOrStr envModel "stepfun/step-3.5-flash",
    messages := [⟨"system", OWNER_CONTEXT⟩, ⟨"user", userMessage⟩],
    max_tokens := 512,
    temperature := 7/10,
    stream := true,
    include_usage := true }

/-- Behaviour of the upstream provider for one relay: the `create` call
itself may reject, or the iterator yields `chunks` and then either ends
normally (`midErr = none`) or raises (`midErr = some e`). -/
inductive Upstream where
  | createFails (e : JsError)
  | stream (chunks : List StreamChunk) (midErr : Option JsError)
deriving DecidableEq, Repr

/-- One iteration of the `for await` loop in `streamAIReply`: write a
chunk frame when the delta is a truthy (non-empty) string, and latch the
usage summary when the chunk carries one. -/
def relayStep (acc : Option Usage × Response) (c : StreamChunk) : Option Usage × Response :=
  let r :=
    match deltaContent c with
    | some d => if d = "" then acc.2 else acc.2.write (Frame.chunk d)
    | none => acc.2
  let u :=
    match c.usage with
    | some w => some w
    | none => acc.1
  (u, r)

/-- The whole `for await` loop over the chunks the iterator yields. -/
def relayLoop (chunks : List StreamChunk) (acc : Option Usage × Response) : Option Usage × Response :=
  chunks.foldl relayStep acc

/-- Result of one `streamAIReply` call: the returned usage (or the error
it raised), the response state, the stats state, and the upstream
request it constructed. -/
structure RelayResult where
  outcome : Except JsError (Option Usage)
  res : Response
  stats : TokenStats
  sentRequest : UpstreamRequest
deriving Repr

/-- `streamAIReply(userMessage, res)` from ai.service.js, with the
upstream behaviour and the stats cell passed explicitly.  On normal
completion it writes the terminal done frame, ends the response and
records the usage; an error from `create` or from the loop propagates
before any of that happens. -/
def streamAIReply (userMessage : String) (envModel : Option String)
    (up : Upstream) (res : Response) (stats : TokenStats) : RelayResult :=
  let req := mkUpstreamRequest envModel userMessage
  match up with
  | .createFails e => ⟨.error e, res, stats, req⟩
  | .stream chunks midErr =>
    let out := relayLoop chunks (none, res)
    match midErr with
    | some e => ⟨.error e, out.2, stats, req⟩
    | none =>
      let r2 := (out.2.write (Frame.done out.1)).resEnd
      ⟨.ok out.1, r2, _recordUsage out.1 stats, req⟩

/-- The `catch` block of `handleChat`: after headers are sent, write a
single in-band SSE error frame and end; before, hand the error to
`next`. -/
def handleChatCatch (e : JsError) (res : Response) : Option JsError × Response :=
  if res.headersSent then
    (none, (res.write (Frame.error "Stream error occurred.")).resEnd)
  else
    (some e, res)

/-- Result of one `handleChat` call: the error passed to `next` (if
any), the response state, the stats state, `res.locals.tokenUsage`, and
the upstream request sent (if the relay was reached). -/
structure HandlerResult where
  nextErr : Option JsError
  res : Response
  stats : TokenStats
  tokenUsage : Option Usage
  sentRequest : Option UpstreamRequest
deriving DecidableEq, Repr

/-- `handleChat` from chat.controller.js: the three validation checks in
order (each failing with a 400 error via `next`), then the SSE headers
are flushed and `streamAIReply` runs on the trimmed message; an
exception lands in the catch block. -/
def handleChat (message : JSValue) (envModel : Option String)
    (up : Upstream) (res : Response) (stats : TokenStats) : HandlerResult :=
  if !(jsTruthy message) || !(message.isString) then
    { nextErr := some ⟨"Request body must include a \"message\" string.", some 400, none⟩,
      res := res, stats := stats, tokenUsage := none, sentRequest := none }
  else
    let trimmed := jsTrim message.strVal
    if trimmed.length = 0 then
      { nextErr := some ⟨"\"message\" must not be blank.", some 400, none⟩,
        res := res, stats := stats, tokenUsage := none, sentRequest := none }
    else if 1000 < trimmed.length then
      { nextErr := some ⟨"\"message\" must be 1000 characters or fewer.", some 400, none⟩,
        res := res, stats := stats, tokenUsage := none, sentRequest := none }
    else
      let res1 : Response := { res with headersSent := true }
      let rr := streamAIReply trimmed envModel up res1 stats
      match rr.outcome with
      | .ok usage =>
        { nextErr := none, res := rr.res, stats := rr.stats,
          tokenUsage := usage, sentRequest := some rr.sentRequest }
      | .error e =>
        let caught := handleChatCatch e rr.res
        { nextErr := caught.1, res := caught.2, stats := rr.stats,
          tokenUsage := none, sentRequest := some rr.sentRequest }

/-- The non-empty text fragments of an upstream chunk sequence, in
arrival order: exactly those deltas the relay forwards. -/
def fragments (chunks : List StreamChunk) : List String :=
  chunks.filterMap fun c =>
    match deltaContent c with
    | some d => if d = "" then none else some d
    | none => none

/-- The usage summary captured by the loop: the last `chunk.usage`
present, if any, starting from `u`. -/
def lastUsageFrom (u : Option Usage) (chunks : List StreamChunk) : Option Usage :=
  chunks.foldl (fun a c =>
    match c.usage with
    | some w => some w
    | none => a) u

/-- The usage summary captured by a full relay. -/
def lastUsage (chunks : List StreamChunk) : Option Usage :=
  lastUsageFrom none chunks

/-- The validator's acceptance predicate, mirroring the spec: a truthy
string whose trimmed form is non-empty and at most 1000 characters. -/
def validMessage (v : JSValue) : Bool :=
  jsTruthy v && v.isString &&
  (jsTrim v.strVal).length != 0 &&
  decide ((jsTrim v.strVal).length ≤ 1000)

/-- Folding `_recordUsage` over a list of present summaries, from the
initial all-zero stats: the accumulator after those relays. -/
def recordAll (l : List Usage) : TokenStats :=
  l.foldl (fun s u => _recordUsage (some u) s) initStats

/-- A heap of stats objects, to model JavaScript object identity:
`getTokenStats` returns a fresh shallow copy, not the internal object. -/
structure Heap where
  store : Nat → TokenStats
  next : Nat

/-- Read the object at an address. -/
def Heap.read (h : Heap) (a : Nat) : TokenStats :=
  h.store a

/-- Overwrite the object at an address (a client mutating an object it
holds a reference to). -/
def Heap.write (h : Heap) (a : Nat) (v : TokenStats) : Heap :=
  ⟨fun x => if x = a then v else h.store x, h.next⟩

/-- Allocate a fresh object. -/
def Heap.alloc (h : Heap) (v : TokenStats) : Nat × Heap :=
  (h.next, ⟨fun x => if x = h.next then v else h.store x, h.next + 1⟩)

/-- `getTokenStats()` from ai.service.js: returns the spread copy
`\x7b ..._tokenStats \x7d` — a freshly allocated object with the same
field values as the internal stats object at `statsAddr`. -/
def getTokenStats (statsAddr : Nat) (h : Heap) : Nat × Heap :=
  h.alloc (h.read statsAddr)

/-- A one-cell heap holding the stats object at address 0. -/
def demoHeap : Heap :=
  ⟨fun _ => initStats, 1⟩

/-- A 1001-character message (over the limit). -/
def overLongMsg : String :=
  ⟨List.replicate 1001 'a'⟩

/-- A 1000-character message (exactly at the limit). -/
def maxLenMsg : String :=
  ⟨List.replicate 1000 'a'⟩

/- ———————————————————————— theorems ———————————————————————— -/

theorem relayLoop_spec (chunks : List StreamChunk) (u : Option Usage) (r : Response) :
    relayLoop chunks (u, r) =
      (lastUsageFrom u chunks,
       { r with writes := r.writes ++ (fragments chunks).map Frame.chunk }) := by
  induction chunks generalizing u r with
  | nil => simp [relayLoop, lastUsageFrom, fragments]
  | cons c cs ih =>
    rw [show relayLoop (c :: cs) (u, r) = relayLoop cs (relayStep (u, r) c) from rfl]
    rcases hd : deltaContent c with _ | d
    · rcases hu : c.usage with _ | w <;>
        simp [relayStep, hd, hu, ih, lastUsageFrom, fragments, List.filterMap_cons]
    · by_cases hde : d = "" <;> rcases hu : c.usage with _ | w <;>
        simp [relayStep, hd, hu, hde, ih, lastUsageFrom, fragments,
          List.filterMap_cons, Response.write]

theorem recordUsage_foldl (l : List Usage) (s : TokenStats) :
    l.foldl (fun t u => _recordUsage (some u) t) s =
      { totalRequests := s.totalRequests + l.length,
        promptTokens := s.promptTokens + (l.map Usage.prompt_tokens).sum,
        completionTokens := s.completionTokens + (l.map Usage.completion_tokens).sum,
        totalTokens := s.totalTokens + (l.map Usage.total_tokens).sum } := by
  induction l generalizing s with
  | nil => simp
  | cons u us ih =>
    rw [List.foldl_cons, ih]
    simp [_recordUsage, TokenStats.mk.injEq]
    omega

theorem streamAIReply_sentRequest (msg : String) (env : Option String) (up : Upstream)
    (r : Response) (st : TokenStats) :
    (streamAIReply msg env up r st).sentRequest = mkUpstreamRequest env msg := by
  rcases up with e | ⟨chunks, midErr⟩
  · rfl
  · rcases midErr <;> rfl

theorem streamAIReply_headersSent (msg : String) (env : Option String) (up : Upstream)
    (r : Response) (st : TokenStats) :
    (streamAIReply msg env up r st).res.headersSent = r.headersSent := by
  rcases up with e | ⟨chunks, midErr⟩
  · rfl
  · rcases midErr <;>
      simp [streamAIReply, relayLoop_spec, Response.write, Response.resEnd]

theorem handleChat_valid (v : JSValue) (env : Option String) (up : Upstream)
    (stats : TokenStats) (hv : validMessage v = true) :
    handleChat v env up freshRes stats =
      (let rr := streamAIReply (jsTrim v.strVal) env up sseStartedRes stats
       match rr.outcome with
       | .ok usage =>
         ⟨none, rr.res, rr.stats, usage, some rr.sentRequest⟩
       | .error e =>
         let caught := handleChatCatch e rr.res
         ⟨caught.1, caught.2, rr.stats, none, some rr.sentRequest⟩) := by
  simp only [validMessage, Bool.and_eq_true, bne_iff_ne, ne_eq, decide_eq_true_eq] at hv
  obtain ⟨⟨⟨h1, h2⟩, h3⟩, h4⟩ := hv
  unfold handleChat
  rw [h1, h2]
  simp only [Bool.not_true, Bool.or_self, Bool.false_eq_true, if_false]
  rw [if_neg h3, if_neg (by omega)]
  rfl

theorem validMessage_spec (v : JSValue) :
    validMessage v = true ↔
      (jsTruthy v = true ∧ v.isString = true ∧
       (jsTrim v.strVal).length ≠ 0 ∧ (jsTrim v.strVal).length ≤ 1000) := by
  simp [validMessage, and_assoc]

theorem handleChat_invalid (v : JSValue) (env : Option String) (up : Upstream)
    (res : Response) (stats : TokenStats) (hv : validMessage v = false) :
    ∃ m, m ≠ "" ∧
      handleChat v env up res stats =
        ⟨some ⟨m, some 400, none⟩, res, stats, none, none⟩ := by
  unfold handleChat
  by_cases h1 : (!jsTruthy v || !v.isString) = true
  · rw [if_pos h1]
    exact ⟨_, by decide, rfl⟩
  · have ht : jsTruthy v = true := by revert h1; cases jsTruthy v <;> simp
    have hs : v.isString = true := by revert h1; cases v.isString <;> simp
    rw [if_neg h1]
    by_cases h2 : (jsTrim v.strVal).length = 0
    · rw [if_pos h2]
      exact ⟨_, by decide, rfl⟩
    · rw [if_neg h2]
      by_cases h3 : 1000 < (jsTrim v.strVal).length
      · rw [if_pos h3]
        exact ⟨_, by decide, rfl⟩
      · exfalso
        have : validMessage v = true :=
          (validMessage_spec v).mpr ⟨ht, hs, h2, by omega⟩
        rw [hv] at this
        exact Bool.false_ne_true this

theorem handleChat_valid_post (v : JSValue) (env : Option String) (up : Upstream)
    (stats : TokenStats) (hv : validMessage v = true) :
    (handleChat v env up freshRes stats).nextErr = none ∧
    (handleChat v env up freshRes stats).res.headersSent = true := by
  rw [handleChat_valid v env up stats hv]
  have hh : (streamAIReply (jsTrim v.strVal) env up sseStartedRes stats).res.headersSent = true := by
    rw [streamAIReply_headersSent]; rfl
  rcases ho : (streamAIReply (jsTrim v.strVal) env up sseStartedRes stats).outcome with e | u
  · simp only [ho]
    simp [handleChatCatch, hh, Response.write, Response.resEnd]
  · simp only [ho]
    exact ⟨trivial, hh⟩

theorem handleChat_sentRequest (v : JSValue) (env : Option String) (up : Upstream)
    (stats : TokenStats) (hv : validMessage v = true) :
    (handleChat v env up freshRes stats).sentRequest =
      some (mkUpstreamRequest env (jsTrim v.strVal)) := by
  rw [handleChat_valid v env up stats hv]
  have hr := streamAIReply_sentRequest (jsTrim v.strVal) env up sseStartedRes stats
  rcases ho : (streamAIReply (jsTrim v.strVal) env up sseStartedRes stats).outcome with e | u <;>
    simp only [ho] <;> simp [hr]

theorem dropWhile_all_append {α} (p : α → Bool) (w l : List α) (hw : w.all p = true) :
    (w ++ l).dropWhile p = l.dropWhile p := by
  induction w with
  | nil => rfl
  | cons a as ih =>
    simp only [List.all_cons, Bool.and_eq_true] at hw
    simp [List.dropWhile_cons, hw.1, ih hw.2]

theorem dropWhile_ne_nil_append {α} (p : α → Bool) (l1 l2 : List α)
    (h : l1.dropWhile p ≠ []) :
    (l1 ++ l2).dropWhile p = l1.dropWhile p ++ l2 := by
  induction l1 with
  | nil => simp at h
  | cons a as ih =>
    by_cases hp : p a
    · rw [List.dropWhile_cons_of_pos hp] at h
      rw [List.cons_append, List.dropWhile_cons_of_pos hp, List.dropWhile_cons_of_pos hp]
      exact ih h
    · rw [List.cons_append, List.dropWhile_cons_of_neg hp, List.dropWhile_cons_of_neg hp,
        List.cons_append]

theorem dropWhile_eq_nil_of_all {α} (p : α → Bool) (l : List α) (h : l.all p = true) :
    l.dropWhile p = [] := by
  induction l with
  | nil => rfl
  | cons a as ih =>
    simp only [List.all_cons, Bool.and_eq_true] at h
    simp [List.dropWhile_cons, h.1, ih h.2]

theorem all_of_dropWhile_eq_nil {α} (p : α → Bool) (l : List α)
    (h : l.dropWhile p = []) : l.all p = true := by
  induction l with
  | nil => rfl
  | cons a as ih =>
    by_cases hp : p a
    · simp only [List.dropWhile_cons, hp, if_true] at h
      simp [List.all_cons, hp, ih h]
    · simp [List.dropWhile_cons, hp] at h

theorem jsTrimList_pad (w1 w2 l : List Char)
    (h1 : w1.all isJsWhitespace = true) (h2 : w2.all isJsWhitespace = true) :
    jsTrimList (w1 ++ l ++ w2) = jsTrimList l := by
  unfold jsTrimList
  rw [List.append_assoc, dropWhile_all_append _ w1 _ h1]
  by_cases hnil : l.dropWhile isJsWhitespace = []
  · have hall : l.all isJsWhitespace = true := all_of_dropWhile_eq_nil _ l hnil
    rw [dropWhile_all_append _ l w2 hall, dropWhile_eq_nil_of_all _ w2 h2, hnil]
  · rw [dropWhile_ne_nil_append _ l w2 hnil, List.reverse_append,
        dropWhile_all_append _ w2.reverse _ (by rw [List.all_reverse]; exact h2)]

theorem jsTrim_pad (w1 w2 t : String)
    (h1 : w1.data.all isJsWhitespace = true) (h2 : w2.data.all isJsWhitespace = true) :
    jsTrim (w1 ++ t ++ w2) = jsTrim t := by
  unfold jsTrim
  have hd : (w1 ++ t ++ w2).data = w1.data ++ t.data ++ w2.data := by
    simp [String.data_append]
  rw [hd]
  exact congrArg (fun l => (⟨l⟩ : String)) (jsTrimList_pad w1.data w2.data t.data h1 h2)

/-- C1: on a successful relay the output channel receives exactly one chunk
frame per non-empty upstream text fragment, in arrival order, followed by
exactly one done frame carrying the captured usage summary as the last
frame; the channel is then closed (`res.end()`), and the relay returns
normally, writing nothing further. -/
theorem relay_forwards_fragments_in_order (msg : String) (env : Option String)
    (chunks : List StreamChunk) (stats : TokenStats) :
    (streamAIReply msg env (.stream chunks none) sseStartedRes stats).res.writes =
        (fragments chunks).map Frame.chunk ++ [Frame.done (lastUsage chunks)] ∧
    (streamAIReply msg env (.stream chunks none) sseStartedRes stats).res.ended = true ∧
    (streamAIReply msg env (.stream chunks none) sseStartedRes stats).outcome =
        .ok (lastUsage chunks) := by
  simp [streamAIReply, relayLoop_spec, Response.write, Response.resEnd,
    sseStartedRes, lastUsage]

/-- C2: after recording N usage summaries the accumulator holds exactly the
component-wise sums (request count N), `_recordUsage` of an absent summary
is a no-op, and no single `_recordUsage` call ever decreases a counter. -/
theorem usage_accumulator_totals (l : List Usage) (s : TokenStats) (ou : Option Usage) :
    (recordAll l).totalRequests = l.length ∧
    (recordAll l).promptTokens = (l.map Usage.prompt_tokens).sum ∧
    (recordAll l).completionTokens = (l.map Usage.completion_tokens).sum ∧
    (recordAll l).totalTokens = (l.map Usage.total_tokens).sum ∧
    _recordUsage none s = s ∧
    s.totalRequests ≤ (_recordUsage ou s).totalRequests ∧
    s.promptTokens ≤ (_recordUsage ou s).promptTokens ∧
    s.completionTokens ≤ (_recordUsage ou s).completionTokens ∧
    s.totalTokens ≤ (_recordUsage ou s).totalTokens := by
  refine ⟨?_, ?_, ?_, ?_, rfl, ?_, ?_, ?_, ?_⟩ <;>
    first
      | simp [recordAll, recordUsage_foldl, initStats]
      | (rcases ou with _ | u <;> simp [_recordUsage])

/-- C4: a payload whose message field is missing or not a string is rejected
by the first validation check with a 400 error carrying the exact message
for that case, before the response is touched (no headers, no frames); the
centralized middleware turns that error into the 400 JSON body; and the
checks short-circuit in order — the empty string, which also has a blank
trimmed form, still gets the first check's message. -/
theorem missing_or_nonstring_message_rejected (v : JSValue) (env : Option String)
    (up : Upstream) (stats : TokenStats) (h : v.isString = false) :
    (handleChat v env up freshRes stats).nextErr =
        some ⟨"Request body must include a \"message\" string.", some 400, none⟩ ∧
    (handleChat v env up freshRes stats).res = freshRes ∧
    errorMiddleware ⟨"Request body must include a \"message\" string.", some 400, none⟩ =
        ⟨400, "Request body must include a \"message\" string."⟩ ∧
    (handleChat (.str "") env up freshRes stats).nextErr =
        some ⟨"Request body must include a \"message\" string.", some 400, none⟩ := by
  have hcond : (!jsTruthy v || !v.isString) = true := by rw [h]; simp
  refine ⟨?_, ?_, by decide, by simp [handleChat, jsTruthy]⟩ <;>
    simp [handleChat, hcond]

/-- Witness for C4 at the concrete inputs `undefined` and `""`. -/
theorem missing_or_nonstring_message_rejected_check :
    JSValue.undefined.isString = false ∧
    ((handleChat .undefined none (.stream [] none) freshRes initStats).nextErr =
        some ⟨"Request body must include a \"message\" string.", some 400, none⟩ ∧
     (handleChat .undefined none (.stream [] none) freshRes initStats).res = freshRes ∧
     errorMiddleware ⟨"Request body must include a \"message\" string.", some 400, none⟩ =
        ⟨400, "Request body must include a \"message\" string."⟩ ∧
     (handleChat (.str "") none (.stream [] none) freshRes initStats).nextErr =
        some ⟨"Request body must include a \"message\" string.", some 400, none⟩) :=
  ⟨rfl, missing_or_nonstring_message_rejected .undefined none (.stream [] none) initStats rfl⟩

/-- C5 counterexample: the empty string is a message whose trimmed form is
empty, yet validation rejects it at the first (presence) check — JavaScript
`!message` is true for `""` — with the missing-message error, not the
"must not be blank" error the claim requires for it. -/
theorem empty_string_message_hits_first_check :
    (handleChat (.str "") none (.stream [] none) freshRes initStats).nextErr =
        some ⟨"Request body must include a \"message\" string.", some 400, none⟩ ∧
    "Request body must include a \"message\" string." ≠ "\"message\" must not be blank." :=
  ⟨by decide, by decide⟩

/-- C5 (amended): every non-empty string message whose trimmed form is empty
— i.e. every whitespace-only message — fails the non-emptiness check with
the exact blank-message error and HTTP 400, before the response is
touched. -/
theorem whitespace_only_message_rejected_blank (s : String) (env : Option String)
    (up : Upstream) (stats : TokenStats) (h1 : s ≠ "") (h2 : jsTrim s = "") :
    (handleChat (.str s) env up freshRes stats).nextErr =
        some ⟨"\"message\" must not be blank.", some 400, none⟩ ∧
    (handleChat (.str s) env up freshRes stats).res = freshRes ∧
    errorMiddleware ⟨"\"message\" must not be blank.", some 400, none⟩ =
        ⟨400, "\"message\" must not be blank."⟩ := by
  have hcond : (!jsTruthy (JSValue.str s) || !(JSValue.str s).isString) = false := by
    simp [jsTruthy, JSValue.isString, h1]
  have hlen : (jsTrim (JSValue.str s).strVal).length = 0 := by
    simp [JSValue.strVal, h2]
  refine ⟨?_, ?_, by decide⟩ <;>
    simp [handleChat, hcond, hlen]

/-- Witness for C5's amended theorem at the one-space message. -/
theorem whitespace_only_message_rejected_blank_check :
    (" " ≠ "") ∧ jsTrim " " = "" ∧
    ((handleChat (.str " ") none (.stream [] none) freshRes initStats).nextErr =
        some ⟨"\"message\" must not be blank.", some 400, none⟩ ∧
     (handleChat (.str " ") none (.stream [] none) freshRes initStats).res = freshRes ∧
     errorMiddleware ⟨"\"message\" must not be blank.", some 400, none⟩ =
        ⟨400, "\"message\" must not be blank."⟩) :=
  ⟨by decide, by decide,
   whitespace_only_message_rejected_blank " " none (.stream [] none) initStats
     (by decide) (by decide)⟩

/-- C6: a message whose trimmed length exceeds 1000 characters is rejected
with the exact length error and HTTP 400 before the response is touched,
while a message whose trimmed length is exactly 1000 proceeds past
validation (no error handed to `next`, SSE headers flushed). -/
theorem message_length_limit (s : String) (env : Option String) (up : Upstream)
    (stats : TokenStats) :
    (1000 < (jsTrim s).length →
      (handleChat (.str s) env up freshRes stats).nextErr =
          some ⟨"\"message\" must be 1000 characters or fewer.", some 400, none⟩ ∧
      (handleChat (.str s) env up freshRes stats).res = freshRes) ∧
    ((jsTrim s).length = 1000 →
      (handleChat (.str s) env up freshRes stats).nextErr = none ∧
      (handleChat (.str s) env up freshRes stats).res.headersSent = true) := by
  constructor
  · intro h
    have hs : s ≠ "" := by
      intro he; rw [he] at h; exact absurd h (by decide)
    have hcond : (!jsTruthy (JSValue.str s) || !(JSValue.str s).isString) = false := by
      simp [jsTruthy, JSValue.isString, hs]
    have hlen0 : ¬ (jsTrim (JSValue.str s).strVal).length = 0 := by
      simp only [JSValue.strVal]; omega
    have hgt : 1000 < (jsTrim (JSValue.str s).strVal).length := by
      simpa only [JSValue.strVal] using h
    constructor <;> simp [handleChat, hcond, hlen0, hgt]
  · intro h
    have hs : s ≠ "" := by
      intro he; rw [he] at h; exact absurd h (by decide)
    have hv : validMessage (.str s) = true := by
      refine (validMessage_spec _).mpr ⟨?_, rfl, ?_, ?_⟩
      · simp [jsTruthy, hs]
      · simp only [JSValue.strVal]; omega
      · simp only [JSValue.strVal]; omega
    exact handleChat_valid_post (.str s) env up stats hv

set_option maxRecDepth 8000 in
/-- Witness for C6 at a 1001-character and a 1000-character message. -/
theorem message_length_limit_check :
    (1000 < (jsTrim overLongMsg).length ∧
      (handleChat (.str overLongMsg) none (.stream [] none) freshRes initStats).nextErr =
          some ⟨"\"message\" must be 1000 characters or fewer.", some 400, none⟩ ∧
      (handleChat (.str overLongMsg) none (.stream [] none) freshRes initStats).res = freshRes) ∧
    ((jsTrim maxLenMsg).length = 1000 ∧
      (handleChat (.str maxLenMsg) none (.stream [] none) freshRes initStats).nextErr = none ∧
      (handleChat (.str maxLenMsg) none (.stream [] none) freshRes initStats).res.headersSent = true) := by
  constructor
  · have h : 1000 < (jsTrim overLongMsg).length := by decide
    obtain ⟨a, b⟩ := (message_length_limit overLongMsg none (.stream [] none) initStats).1 h
    exact ⟨h, a, b⟩
  · have h : (jsTrim maxLenMsg).length = 1000 := by decide
    obtain ⟨a, b⟩ := (message_length_limit maxLenMsg none (.stream [] none) initStats).2 h
    exact ⟨h, a, b⟩

/-- C7: a failure during a chat request after headers are sent (mid-stream
or on the upstream call, both of which happen after the flush) produces
exactly one in-band SSE error frame as the final write and closes the
channel, with nothing handed to `next`; a failure before headers are sent
(validation) is handed to the centralized error path, which emits the
uniform JSON error object. -/
theorem failure_error_channel_paths (v : JSValue) (env : Option String)
    (stats : TokenStats) :
    (∀ chunks e, validMessage v = true →
      (handleChat v env (.stream chunks (some e)) freshRes stats).nextErr = none ∧
      (handleChat v env (.stream chunks (some e)) freshRes stats).res.writes =
        (fragments chunks).map Frame.chunk ++ [Frame.error "Stream error occurred."] ∧
      (handleChat v env (.stream chunks (some e)) freshRes stats).res.ended = true) ∧
    (∀ e, validMessage v = true →
      (handleChat v env (.createFails e) freshRes stats).nextErr = none ∧
      (handleChat v env (.createFails e) freshRes stats).res.writes =
        [Frame.error "Stream error occurred."] ∧
      (handleChat v env (.createFails e) freshRes stats).res.ended = true) ∧
    (∀ up, validMessage v = false →
      ∃ er, (handleChat v env up freshRes stats).nextErr = some er ∧
        (handleChat v env up freshRes stats).res = freshRes ∧
        errorMiddleware er = ⟨400, er.message⟩) := by
  refine ⟨?_, ?_, ?_⟩
  · intro chunks e hv
    rw [handleChat_valid v env (.stream chunks (some e)) stats hv]
    simp [streamAIReply, relayLoop_spec, handleChatCatch, sseStartedRes,
      Response.write, Response.resEnd]
  · intro e hv
    rw [handleChat_valid v env (.createFails e) stats hv]
    simp [streamAIReply, handleChatCatch, sseStartedRes, Response.write, Response.resEnd]
  · intro up hv
    obtain ⟨m, hm, heq⟩ := handleChat_invalid v env up freshRes stats hv
    refine ⟨⟨m, some 400, none⟩, ?_, ?_, ?_⟩
    · rw [heq]
    · rw [heq]
    · simp [errorMiddleware, jsOrNat, hm]

/-- Witness for C7 at a valid message with a mid-stream error and at an
invalid (blank) message. -/
theorem failure_error_channel_paths_check :
    (validMessage (.str "hi") = true ∧
      (handleChat (.str "hi") none (.stream [] (some ⟨"boom", none, none⟩))
          freshRes initStats).nextErr = none ∧
      (handleChat (.str "hi") none (.stream [] (some ⟨"boom", none, none⟩))
          freshRes initStats).res.writes =
        (fragments []).map Frame.chunk ++ [Frame.error "Stream error occurred."] ∧
      (handleChat (.str "hi") none (.stream [] (some ⟨"boom", none, none⟩))
          freshRes initStats).res.ended = true) ∧
    (validMessage (.str "") = false ∧
      ∃ er, (handleChat (.str "") none (.createFails ⟨"boom", none, none⟩)
          freshRes initStats).nextErr = some er ∧
        (handleChat (.str "") none (.createFails ⟨"boom", none, none⟩)
          freshRes initStats).res = freshRes ∧
        errorMiddleware er = ⟨400, er.message⟩) := by
  constructor
  · have hv : validMessage (.str "hi") = true := by decide
    exact ⟨hv, (failure_error_channel_paths (.str "hi") none initStats).1 []
      ⟨"boom", none, none⟩ hv⟩
  · have hv : validMessage (.str "") = false := by decide
    exact ⟨hv, (failure_error_channel_paths (.str "") none initStats).2.2
      (.createFails ⟨"boom", none, none⟩) hv⟩

/-- C8 counterexample: an upstream failure that carries an HTTP status —
here a provider rate-limit error with `status` 429 — handled before
response headers are sent, is passed to the centralized error path, which
forwards the error's own status (`err.statusCode || err.status || 500`):
the client receives 429, which is not a 5xx status. -/
theorem upstream_429_surfaces_as_429_not_5xx :
    freshRes.headersSent = false ∧
    handleChatCatch ⟨"Provider rate limited", none, some 429⟩ freshRes =
      (some ⟨"Provider rate limited", none, some 429⟩, freshRes) ∧
    errorMiddleware ⟨"Provider rate limited", none, some 429⟩ =
      ⟨429, "Provider rate limited"⟩ ∧
    ¬ 500 ≤ (errorMiddleware ⟨"Provider rate limited", none, some 429⟩).status :=
  ⟨rfl, by decide, by decide, by decide⟩

/-- C8 (amended): an upstream failure handed to the catch block before
headers are sent goes untouched to the centralized error path, which emits
the uniform JSON error body whose status is the error's own
statusCode/status field when a (nonzero) one is present — so a provider
429 surfaces as 429 — and 500, a 5xx, only when the error carries no HTTP
status. -/
theorem prestream_failure_status_forwarded (e : JsError) (res : Response)
    (h : res.headersSent = false) :
    handleChatCatch e res = (some e, res) ∧
    (errorMiddleware e).error =
      (if e.message = "" then "Internal server error" else e.message) ∧
    (e.statusCode = none → e.status = none → (errorMiddleware e).status = 500) ∧
    (∀ n, n ≠ 0 → e.statusCode = some n → (errorMiddleware e).status = n) ∧
    (∀ n, n ≠ 0 → e.statusCode = none → e.status = some n →
      (errorMiddleware e).status = n) := by
  refine ⟨by simp [handleChatCatch, h], rfl, ?_, ?_, ?_⟩
  · intro h1 h2
    simp [errorMiddleware, jsOrNat, h1, h2]
  · intro n hn h1
    simp [errorMiddleware, jsOrNat, h1, hn]
  · intro n hn h1 h2
    simp [errorMiddleware, jsOrNat, h1, h2, hn]

/-- Witness for C8's amended theorem at a fresh response, with a
status-less connection error (surfacing as 500) and a status-carrying
provider error (surfacing with its own status). -/
theorem prestream_failure_status_forwarded_check :
    freshRes.headersSent = false ∧
    (handleChatCatch ⟨"upstream connection failed", none, none⟩ freshRes =
        (some ⟨"upstream connection failed", none, none⟩, freshRes) ∧
      (errorMiddleware ⟨"upstream connection failed", none, none⟩).status = 500) ∧
    (handleChatCatch ⟨"Provider rate limited", none, some 429⟩ freshRes =
        (some ⟨"Provider rate limited", none, some 429⟩, freshRes) ∧
      (errorMiddleware ⟨"Provider rate limited", none, some 429⟩).status = 429) := by
  refine ⟨rfl, ?_, ?_⟩
  · obtain ⟨a, _, b, _, _⟩ :=
      prestream_failure_status_forwarded ⟨"upstream connection failed", none, none⟩
        freshRes rfl
    exact ⟨a, b rfl rfl⟩
  · obtain ⟨a, _, _, _, c⟩ :=
      prestream_failure_status_forwarded ⟨"Provider rate limited", none, some 429⟩
        freshRes rfl
    exact ⟨a, c 429 (by decide) rfl rfl⟩

/-- C9: `getTokenStats` is a read-only snapshot: it leaves the internal
stats object unchanged, two consecutive snapshots with no intervening
record hold identical values, and mutating the freshly allocated snapshot
object does not change the accumulator's internal state. -/
theorem stats_snapshot_read_only (h : Heap) (a : Nat) (ha : a < h.next) :
    ((getTokenStats a h).2).read a = h.read a ∧
    ((getTokenStats a h).2).read (getTokenStats a h).1 = h.read a ∧
    ((getTokenStats a ((getTokenStats a h).2)).2).read
        (getTokenStats a ((getTokenStats a h).2)).1 = h.read a ∧
    ∀ v, (((getTokenStats a h).2).write (getTokenStats a h).1 v).read a = h.read a := by
  have hne : a ≠ h.next := Nat.ne_of_lt ha
  refine ⟨?_, ?_, ?_, ?_⟩ <;>
    simp [getTokenStats, Heap.alloc, Heap.read, Heap.write, hne]

/-- Witness for C9 on a one-cell heap. -/
theorem stats_snapshot_read_only_check :
    0 < demoHeap.next ∧
    (((getTokenStats 0 demoHeap).2).read 0 = demoHeap.read 0 ∧
     ((getTokenStats 0 demoHeap).2).read (getTokenStats 0 demoHeap).1 = demoHeap.read 0 ∧
     ((getTokenStats 0 ((getTokenStats 0 demoHeap).2)).2).read
        (getTokenStats 0 ((getTokenStats 0 demoHeap).2)).1 = demoHeap.read 0 ∧
     ∀ v, (((getTokenStats 0 demoHeap).2).write (getTokenStats 0 demoHeap).1 v).read 0 =
        demoHeap.read 0) :=
  ⟨by decide, stats_snapshot_read_only demoHeap 0 (by decide)⟩

/-- C10: for every valid chat request the user message in the upstream
request is the trimmed message, so two valid submissions with equal trimmed
forms — in particular two messages differing only in surrounding
whitespace, since trimming ignores whitespace padding — produce the
identical upstream request. -/
theorem forwarded_message_is_trimmed (s : String) (env : Option String) (up : Upstream)
    (stats : TokenStats) (hv : validMessage (.str s) = true) :
    (handleChat (.str s) env up freshRes stats).sentRequest =
        some (mkUpstreamRequest env (jsTrim s)) ∧
    (∀ m1 m2 : String, validMessage (.str m1) = true → validMessage (.str m2) = true →
      jsTrim m1 = jsTrim m2 →
      (handleChat (.str m1) env up freshRes stats).sentRequest =
        (handleChat (.str m2) env up freshRes stats).sentRequest) ∧
    (∀ w1 w2 t : String, w1.data.all isJsWhitespace = true →
      w2.data.all isJsWhitespace = true →
      jsTrim (w1 ++ t ++ w2) = jsTrim t) := by
  refine ⟨?_, ?_, ?_⟩
  · simpa [JSValue.strVal] using handleChat_sentRequest (.str s) env up stats hv
  · intro m1 m2 h1 h2 heq
    rw [handleChat_sentRequest (.str m1) env up stats h1,
        handleChat_sentRequest (.str m2) env up stats h2]
    simp [JSValue.strVal, heq]
  · intro w1 w2 t hw1 hw2
    exact jsTrim_pad w1 w2 t hw1 hw2

/-- Witness for C10 at the padded message " hi ". -/
theorem forwarded_message_is_trimmed_check :
    validMessage (.str " hi ") = true ∧
    ((handleChat (.str " hi ") none (.stream [] none) freshRes initStats).sentRequest =
        some (mkUpstreamRequest none (jsTrim " hi ")) ∧
     (∀ m1 m2 : String, validMessage (.str m1) = true → validMessage (.str m2) = true →
       jsTrim m1 = jsTrim m2 →
       (handleChat (.str m1) none (.stream [] none) freshRes initStats).sentRequest =
         (handleChat (.str m2) none (.stream [] none) freshRes initStats).sentRequest) ∧
     (∀ w1 w2 t : String, w1.data.all isJsWhitespace = true →
       w2.data.all isJsWhitespace = true →
       jsTrim (w1 ++ t ++ w2) = jsTrim t)) :=
  ⟨by decide, forwarded_message_is_trimmed " hi " none (.stream [] none) initStats (by decide)⟩

end JulzAI
